import Mathlib

/-!
Verification of the multi-tenant authorization gateway
(`examples/multi-tenant/app.py`): a shallow embedding of the data model,
the authentication middleware, the OPA policy-decision client and the
resource-store route handlers, together with theorems settling the
specified properties.
-/

namespace MultiTenant

/-- A Python/JSON value, as held in request bodies, response bodies and
the in-memory data stores. Objects are modelled as association lists in
insertion order, matching Python dict literal order. -/
inductive Json where
  | null : Json
  | bool (b : Bool) : Json
  | num (n : Int) : Json
  | str (s : String) : Json
  | arr (xs : List Json) : Json
  | obj (fields : List (String × Json)) : Json

mutual

/-- Boolean equality on JSON values. -/
def jsonBeq : Json → Json → Bool
  | .null, .null => true
  | .bool a, .bool c => a == c
  | .num a, .num c => a == c
  | .str a, .str c => a == c
  | .arr xs, .arr ys => jsonBeqList xs ys
  | .obj fs, .obj gs => jsonBeqFields fs gs
  | _, _ => false

/-- Boolean equality on JSON arrays. -/
def jsonBeqList : List Json → List Json → Bool
  | [], [] => true
  | x :: xs, y :: ys => jsonBeq x y && jsonBeqList xs ys
  | _, _ => false

/-- Boolean equality on JSON object field lists. -/
def jsonBeqFields : List (String × Json) → List (String × Json) → Bool
  | [], [] => true
  | (k, v) :: fs, (k', v') :: gs => k == k' && jsonBeq v v' && jsonBeqFields fs gs
  | _, _ => false

end

instance : BEq Json := ⟨jsonBeq⟩

/-- Python truthiness of a value, as tested by `if not x`. -/
def truthy : Json → Bool
  | .null => false
  | .bool b => b
  | .num n => n != 0
  | .str s => s != ""
  | .arr [] => false
  | .arr (_ :: _) => true
  | .obj [] => false
  | .obj (_ :: _) => true

/-- Errors a handler can raise (uncaught Python exceptions). -/
inductive PyError where
  | attributeError : PyError
  | typeError : PyError
  | keyError : PyError
deriving DecidableEq, Repr

/-- First value bound to a key in an association list (Python dict lookup). -/
def assocGet (fs : List (String × Json)) (k : String) : Option Json :=
  match fs with
  | [] => none
  | (k', v) :: rest => if k' = k then some v else assocGet rest k

/-- Python `d.get(k)`: returns the value or `None`; raises `AttributeError`
when the receiver is not a dict (`None.get`, `[].get`, ...). -/
def pyDictGet (j : Json) (k : String) : Except PyError (Option Json) :=
  match j with
  | .obj fs => .ok (assocGet fs k)
  | _ => .error .attributeError

/-- Python `k in d` on a JSON value: key test for dicts, substring test for
strings, element test for lists; raises `TypeError` otherwise. -/
def pyContains (k : String) (j : Json) : Except PyError Bool :=
  match j with
  | .obj fs => .ok (fs.any (fun f => f.1 == k))
  | .str s => .ok (decide ((s.splitOn k).length > 1))
  | .arr xs => .ok (xs.any (fun x => jsonBeq x (.str k)))
  | _ => .error .typeError

/-- Python `d[k]` subscript: value for a present dict key, `KeyError` for an
absent one, `TypeError` on non-dict receivers (for string keys). -/
def pyGetItem (j : Json) (k : String) : Except PyError Json :=
  match j with
  | .obj fs =>
    match assocGet fs k with
    | some v => .ok v
    | none => .error .keyError
  | _ => .error .typeError

/-- A user record of the credential directory (`users` store). -/
structure User where
  id : Int
  username : String
  password : String
  tenant : String
  role : String
  name : String
deriving DecidableEq, Repr

/-- A tenant record of the tenant directory (`tenants` store). -/
structure Tenant where
  id : String
  name : String
  parent : Option String
  active : Bool
deriving DecidableEq, Repr

/-- A resource record of the resource store. `name` and `type` hold
arbitrary JSON values, as Python dicts do; the seeds use strings. -/
structure Resource where
  id : Nat
  tenant : String
  name : Json
  type : Json

/-- Serialization of a resource record back to its Python dict, in the
insertion order used at creation. -/
def resJson (r : Resource) : Json :=
  .obj [("id", .num r.id), ("tenant", .str r.tenant),
        ("name", r.name), ("type", r.type)]

/-- SHA-256 hex digest, modelled as an injective tagging function: the
proofs depend only on equality of digests, never on the digest values. -/
def sha256hex (s : String) : String := "sha256-" ++ s

/-- The `SECRET_KEY` configured at startup. -/
def SECRET_KEY : String := "demo-secret-change-in-production"

/-- Seeded user `alice` (tenant acme, admin). -/
def aliceU : User :=
  { id := 1, username := "alice", password := sha256hex "alice123",
    tenant := "acme", role := "admin", name := "Alice Admin" }

/-- Seeded user `bob` (tenant acme, user). -/
def bobU : User :=
  { id := 2, username := "bob", password := sha256hex "bob123",
    tenant := "acme", role := "user", name := "Bob User" }

/-- Seeded user `charlie` (tenant globex, admin). -/
def charlieU : User :=
  { id := 3, username := "charlie", password := sha256hex "charlie123",
    tenant := "globex", role := "admin", name := "Charlie Admin" }

/-- Seeded user `diana` (tenant globex, user). -/
def dianaU : User :=
  { id := 4, username := "diana", password := sha256hex "diana123",
    tenant := "globex", role := "user", name := "Diana User" }

/-- Seeded user `root` (tenant system, superadmin). -/
def rootU : User :=
  { id := 0, username := "root", password := sha256hex "root123",
    tenant := "system", role := "superadmin", name := "Root Superadmin" }

/-- The seeded `users` store. -/
def seedUsers : List User := [aliceU, bobU, charlieU, dianaU, rootU]

/-- The seeded `tenants` store. -/
def seedTenants : List Tenant :=
  [ { id := "acme", name := "Acme Corporation", parent := none, active := true },
    { id := "globex", name := "Globex Inc", parent := none, active := true },
    { id := "system", name := "System", parent := none, active := true } ]

/-- Seeded resource 1 (acme). -/
def res1 : Resource :=
  { id := 1, tenant := "acme", name := .str "Acme Q1 Report", type := .str "document" }

/-- Seeded resource 2 (acme). -/
def res2 : Resource :=
  { id := 2, tenant := "acme", name := .str "Acme Strategy", type := .str "document" }

/-- Seeded resource 3 (globex). -/
def res3 : Resource :=
  { id := 3, tenant := "globex", name := .str "Globex Financials", type := .str "spreadsheet" }

/-- Seeded resource 4 (globex). -/
def res4 : Resource :=
  { id := 4, tenant := "globex", name := .str "Globex Roadmap", type := .str "document" }

/-- The seeded `resources` store. -/
def seedResources : List Resource := [res1, res2, res3, res4]

/-- The mutable application state: the resource list and the id counter. -/
structure AppState where
  resources : List Resource
  next_resource_id : Nat

/-- The state at process start. -/
def initialState : AppState :=
  { resources := seedResources, next_resource_id := 5 }

/-- An HTTP response: status code and JSON body (from `jsonify`). -/
structure Response where
  status : Nat
  body : Json

/-- `jsonify(\x7b'error': msg\x7d), code` -/
def errResponse (code : Nat) (msg : String) : Response :=
  { status := code, body := .obj [("error", .str msg)] }

/-- The `input_data` object built by `check_opa_permission`: the caller's
id/username/tenant/role, the action, and the resource dict or the
synthesized `\x7b'tenant': user.tenant\x7d` when none is supplied. -/
def mkInput (u : User) (action : String) (res : Option Resource) : Json :=
  .obj [ ("user", .obj [ ("id", .num u.id), ("username", .str u.username),
                         ("tenant", .str u.tenant), ("role", .str u.role) ]),
         ("action", .str action),
         ("resource", match res with
                      | some r => resJson r
                      | none => .obj [("tenant", .str u.tenant)]) ]

/-- The POST body sent to the OPA endpoint: `\x7b'input': input_data\x7d`. -/
def opaRequestBody (input : Json) : Json := .obj [("input", input)]

/-- Outcome of the HTTP POST to the policy decision point: either a
response with a status code and a body (`none` when the body is not
parseable JSON), or a `requests.exceptions.RequestException`
(connection error or timeout). -/
inductive OpaOutcome where
  | response (status : Nat) (body : Option Json) : OpaOutcome
  | requestError : OpaOutcome

/-- A policy decision point, abstracted as a function from the POST body
to the network outcome. -/
def Pdp : Type := Json → OpaOutcome

/-- `check_opa_permission(action, resource)`: builds the decision query,
posts it, and on a 200 response returns `result.get('result', False)`.
An unparseable body raises `requests.exceptions.JSONDecodeError`, a
`RequestException` subclass, so it is caught and denied like connection
errors and non-200 statuses; but a 200 response whose JSON body is not
an object raises an uncaught `AttributeError` at `result.get`. -/
def check_opa_permission (pdp : Pdp) (u : User) (action : String)
    (res : Option Resource) : Except PyError Json :=
  match pdp (opaRequestBody (mkInput u action res)) with
  | .requestError => .ok (.bool false)
  | .response status body =>
    if status = 200 then
      match body with
      | none => .ok (.bool false)
      | some (.obj fs) => .ok ((assocGet fs "result").getD (.bool false))
      | some _ => .error .attributeError
    else
      .ok (.bool false)

/-- The identity claims the gateway signs into a token at login. -/
structure TokenClaims where
  username : String
  tenant : String
  role : String
  exp : Int
deriving DecidableEq, Repr

/-- The HMAC-SHA-256 signature over the claims with the server secret,
modelled as an injective encoding of (secret, claims): verification
depends only on whether the signature matches a re-computation. -/
def mkSig (secret : String) (c : TokenClaims) : String :=
  String.intercalate "|" [secret, c.username, c.tenant, c.role, toString c.exp]

/-- A bearer token as presented on the wire: either garbage that fails
decoding outright, or structured claims with a signature. -/
inductive WireToken where
  | malformed : WireToken
  | signed (claims : TokenClaims) (sig : String) : WireToken
deriving DecidableEq, Repr

/-- The error raised by `jwt.decode`. `expired` is PyJWT's
`ExpiredSignatureError`, a subclass of `InvalidTokenError`; the handler
catches it first, so the two categories stay distinct. -/
inductive JwtError where
  | expired : JwtError
  | invalid : JwtError
deriving DecidableEq, Repr

/-- `jwt.decode(token, secret, algorithms=[HS256])` at time `now`:
signature verification first, then expiry validation. -/
def jwtDecode (secret : String) (now : Int) :
    WireToken → Except JwtError TokenClaims
  | .malformed => .error .invalid
  | .signed c s =>
    if s = mkSig secret c then
      if c.exp ≤ now then .error .expired else .ok c
    else
      .error .invalid

/-- Dict lookup in the `users` store by username. -/
def lookupUser (users : List User) (uname : String) : Option User :=
  users.find? (fun u => u.username = uname)

/-- The `require_auth` decorator: extracts the bearer token (`none`
models a missing or non-Bearer Authorization header), decodes it, maps
decode failures to 401 responses, resolves the username claim against
the `users` store, and only then invokes the wrapped handler. -/
def require_auth {α : Type} (users : List User) (secret : String) (now : Int)
    (header : Option WireToken) (handler : User → α) : Response ⊕ α :=
  match header with
  | none => .inl (errResponse 401 "No token provided")
  | some tok =>
    match jwtDecode secret now tok with
    | .error .expired => .inl (errResponse 401 "Token expired")
    | .error .invalid => .inl (errResponse 401 "Invalid token")
    | .ok payload =>
      match lookupUser users payload.username with
      | none => .inl (errResponse 401 "User not found")
      | some u => .inr (handler u)

/-- `users.get(key)` where the key is an arbitrary JSON value: string
keys look up the store, other hashable values miss, and unhashable
values (lists, dicts) raise `TypeError`. -/
def lookupUserByJson (users : List User) : Json → Except PyError (Option User)
  | .str s => .ok (lookupUser users s)
  | .arr _ => .error .typeError
  | .obj _ => .error .typeError
  | _ => .ok none

/-- The successful login response: token plus public profile. The token
string is not inspected by any claim, so it is serialized via `mkSig`
over the issued claims. -/
def loginSuccess (secret : String) (now : Int) (u : User) : Response :=
  let claims : TokenClaims :=
    { username := u.username, tenant := u.tenant, role := u.role,
      exp := now + 24 * 3600 }
  { status := 200,
    body := .obj [ ("token", .str (mkSig secret claims)),
                   ("user", .obj [ ("username", .str u.username),
                                   ("name", .str u.name),
                                   ("tenant", .str u.tenant),
                                   ("role", .str u.role) ]) ] }

/-- `POST /api/auth/login`: reads `username` and `password` from the
JSON body, rejects unknown users, then hashes the supplied password and
compares digests. `password.encode()` raises `AttributeError` when the
password value is `None` (absent field) or any non-string. -/
def login (users : List User) (secret : String) (now : Int) (data : Json) :
    Except PyError Response := do
  let usernameJ ← (pyDictGet data "username").map (·.getD .null)
  let passwordJ ← (pyDictGet data "password").map (·.getD .null)
  let user ← lookupUserByJson users usernameJ
  match user with
  | none => pure (errResponse 401 "Invalid credentials")
  | some u =>
    match passwordJ with
    | .str p =>
      if u.password ≠ sha256hex p then
        pure (errResponse 401 "Invalid credentials")
      else
        pure (loginSuccess secret now u)
    | _ => .error .attributeError

/-- The tenant-filtered view computed by `list_resources`: everything
for a superadmin, otherwise only the caller's tenant. -/
def accessible_resources (st : AppState) (u : User) : List Resource :=
  if u.role = "superadmin" then st.resources
  else st.resources.filter (fun r => r.tenant = u.tenant)

/-- `GET /api/resources`: returns the tenant-filtered view. It makes no
call to the policy decision point, so it takes no `Pdp` argument. -/
def list_resources (st : AppState) (u : User) : Response :=
  { status := 200,
    body := .obj [("resources", .arr ((accessible_resources st u).map resJson))] }

/-- `POST /api/resources`: OPA-gated create. The new resource's tenant
is always the authenticated caller's tenant; the body only supplies
`name` and `type` (the latter defaulting to `document`). -/
def create_resource (pdp : Pdp) (st : AppState) (u : User) (data : Json) :
    Except PyError (Response × AppState) := do
  let allow ← check_opa_permission pdp u "create" none
  if ¬ truthy allow then
    pure (errResponse 403 "Forbidden", st)
  else
    let nameV ← (pyDictGet data "name").map (·.getD .null)
    let typeV ← (pyDictGet data "type").map (·.getD (.str "document"))
    let newRes : Resource :=
      { id := st.next_resource_id, tenant := u.tenant,
        name := nameV, type := typeV }
    pure ({ status := 201, body := .obj [("resource", resJson newRes)] },
          { resources := st.resources ++ [newRes],
            next_resource_id := st.next_resource_id + 1 })

/-- `GET /api/resources/<id>`: global lookup by id (not tenant-scoped),
then an OPA `read` check on the found resource. -/
def get_resource (pdp : Pdp) (st : AppState) (u : User) (rid : Nat) :
    Except PyError Response := do
  match st.resources.find? (fun r => r.id = rid) with
  | none => pure (errResponse 404 "Resource not found")
  | some r =>
    let allow ← check_opa_permission pdp u "read" (some r)
    if ¬ truthy allow then
      pure (errResponse 403 "Forbidden")
    else
      pure { status := 200, body := .obj [("resource", resJson r)] }

/-- In-place mutation of the first list element with the given id,
matching `next(...)` returning a reference into the list. -/
def replaceFirst : List Resource → Nat → Resource → List Resource
  | [], _, _ => []
  | r :: rs, rid, r' =>
    if r.id = rid then r' :: rs else r :: replaceFirst rs rid r'

/-- `PUT /api/resources/<id>`: global lookup, OPA `update` check, then
mutation of the `name`/`type` fields present in the body. The id and
tenant fields are never written. -/
def update_resource (pdp : Pdp) (st : AppState) (u : User) (rid : Nat)
    (data : Json) : Except PyError (Response × AppState) := do
  match st.resources.find? (fun r => r.id = rid) with
  | none => pure (errResponse 404 "Resource not found", st)
  | some r =>
    let allow ← check_opa_permission pdp u "update" (some r)
    if ¬ truthy allow then
      pure (errResponse 403 "Forbidden", st)
    else
      let hasName ← pyContains "name" data
      let r1 ← if hasName then do
          let v ← pyGetItem data "name"
          pure { r with name := v }
        else pure r
      let hasType ← pyContains "type" data
      let r2 ← if hasType then do
          let v ← pyGetItem data "type"
          pure { r1 with type := v }
        else pure r1
      pure ({ status := 200, body := .obj [("resource", resJson r2)] },
            { st with resources := replaceFirst st.resources rid r2 })

/-- `DELETE /api/resources/<id>`: global lookup, OPA `delete` check,
then removal of every resource bearing the id. -/
def delete_resource (pdp : Pdp) (st : AppState) (u : User) (rid : Nat) :
    Except PyError (Response × AppState) := do
  match st.resources.find? (fun r => r.id = rid) with
  | none => pure (errResponse 404 "Resource not found", st)
  | some r =>
    let allow ← check_opa_permission pdp u "delete" (some r)
    if ¬ truthy allow then
      pure (errResponse 403 "Forbidden", st)
    else
      pure ({ status := 200, body := .obj [("message", .str "Resource deleted")] },
            { st with resources := st.resources.filter (fun x => x.id ≠ rid) })

/-- Serialization of a tenant record. -/
def tenantJson (t : Tenant) : Json :=
  .obj [ ("id", .str t.id), ("name", .str t.name),
         ("parent", match t.parent with | some p => .str p | none => .null),
         ("active", .bool t.active) ]

/-- `GET /api/tenants/<id>`: existence check first (404), then the
superadmin-or-same-tenant access check (403). -/
def get_tenant (ts : List Tenant) (u : User) (tid : String) : Response :=
  match ts.find? (fun t => t.id = tid) with
  | none => errResponse 404 "Tenant not found"
  | some t =>
    if u.role ≠ "superadmin" ∧ u.tenant ≠ tid then
      errResponse 403 "Forbidden"
    else
      { status := 200, body := .obj [("tenant", tenantJson t)] }

/-! ## Helper definitions and lemmas shared by the theorems -/

/-- A constant policy decision point returning a fixed network outcome. -/
def pdpOf (o : OpaOutcome) : Pdp := fun _ => o

/-- A PDP answering every query with a well-shaped allow. -/
def pdpAllow : Pdp := pdpOf (.response 200 (some (.obj [("result", .bool true)])))

/-- A PDP answering every query with a well-shaped deny. -/
def pdpDeny : Pdp := pdpOf (.response 200 (some (.obj [("result", .bool false)])))

/-- Top-level keys of a JSON object (empty for non-objects). -/
def jKeys : Json → List String
  | .obj fs => fs.map Prod.fst
  | _ => []

/-- Top-level field lookup on a JSON object (none for non-objects). -/
def jLookup (j : Json) (k : String) : Option Json :=
  match j with
  | .obj fs => assocGet fs k
  | _ => none

/-- The `name`/`type` mutation `update_resource` applies to the found
resource for a JSON-object body with the given fields. -/
def applyUpdateFields (r : Resource) (fs : List (String × Json)) : Resource :=
  let r1 := match assocGet fs "name" with
            | some v => { r with name := v }
            | none => r
  match assocGet fs "type" with
  | some v => { r1 with type := v }
  | none => r1

theorem assocGet_any (fs : List (String × Json)) (k : String) :
    fs.any (fun f => f.1 == k) = (assocGet fs k).isSome := by
  induction fs with
  | nil => rfl
  | cons f rest ih =>
    obtain ⟨k', v⟩ := f
    by_cases hk : k' = k
    · simp [assocGet, hk]
    · simp [assocGet, hk, ih]

theorem find_eq_some_split {p : Resource → Bool} {l : List Resource} {r : Resource}
    (h : l.find? p = some r) :
    ∃ pre post, l = pre ++ r :: post ∧ ∀ x ∈ pre, p x = false := by
  induction l with
  | nil => simp [List.find?] at h
  | cons a l ih =>
    by_cases ha : p a
    · rw [List.find?_cons_of_pos _ ha] at h
      exact ⟨[], l, by simp [Option.some.inj h], by simp⟩
    · rw [List.find?_cons_of_neg _ (by simpa using ha)] at h
      obtain ⟨pre, post, hl, hpre⟩ := ih h
      refine ⟨a :: pre, post, by simp [hl], ?_⟩
      intro x hx
      rcases List.mem_cons.mp hx with rfl | hx
      · simpa using ha
      · exact hpre x hx

theorem replaceFirst_append (pre post : List Resource) (r r' : Resource) (rid : Nat)
    (hpre : ∀ x ∈ pre, (x.id = rid) = False) (hr : r.id = rid) :
    replaceFirst (pre ++ r :: post) rid r' = pre ++ r' :: post := by
  induction pre with
  | nil => simp [replaceFirst, hr]
  | cons a pre ih =>
    have ha : ¬ a.id = rid := by simpa using hpre a (by simp)
    simp only [List.cons_append, replaceFirst, if_neg ha]
    exact congrArg (a :: ·) (ih (fun x hx => hpre x (by simp [hx])))

/-! ## Theorems for the claims -/

/-- C1 counterexample: the claim says a malformed or unexpectedly-shaped
200 response body yields `false` without ever raising or allowing; but a
200 body that is a JSON array raises an uncaught `AttributeError`, and a
200 object body with a non-boolean `result` value is returned raw and is
truthy, i.e. treated as an allow. -/
theorem check_opa_c1_counterexample :
    check_opa_permission (pdpOf (.response 200 (some (.arr [])))) aliceU "read" none
      = .error .attributeError
    ∧ check_opa_permission (pdpOf (.response 200 (some (.obj [("result", .str "maybe")]))))
        aliceU "read" none = .ok (.str "maybe")
    ∧ truthy (.str "maybe") = true :=
  ⟨rfl, rfl, rfl⟩

/-- C1 (amended): `check_opa_permission` returns `false` without raising
on a connection error or timeout, on any non-200 status, and on an
unparseable response body; a 200 response whose JSON body is an object
yields the raw value of its `result` key (`false` when absent), which
the callers treat as an allow exactly when truthy; a 200 response whose
JSON body is not an object raises an `AttributeError`. -/
theorem check_opa_fail_closed (pdp : Pdp) (u : User) (action : String)
    (res : Option Resource) :
    (pdp (opaRequestBody (mkInput u action res)) = .requestError →
      check_opa_permission pdp u action res = .ok (.bool false))
    ∧ (∀ status body, status ≠ 200 →
        pdp (opaRequestBody (mkInput u action res)) = .response status body →
        check_opa_permission pdp u action res = .ok (.bool false))
    ∧ (pdp (opaRequestBody (mkInput u action res)) = .response 200 none →
        check_opa_permission pdp u action res = .ok (.bool false))
    ∧ (∀ fs, pdp (opaRequestBody (mkInput u action res)) = .response 200 (some (.obj fs)) →
        check_opa_permission pdp u action res = .ok ((assocGet fs "result").getD (.bool false)))
    ∧ (∀ j, pdp (opaRequestBody (mkInput u action res)) = .response 200 (some j) →
        (∀ fs, j ≠ .obj fs) →
        check_opa_permission pdp u action res = .error .attributeError) := by
  refine ⟨?_, ?_, ?_, ?_, ?_⟩
  · intro h; simp [check_opa_permission, h]
  · intro status body hne h; simp [check_opa_permission, h, hne]
  · intro h; simp [check_opa_permission, h]
  · intro fs h; simp [check_opa_permission, h]
  · intro j h hobj
    cases j with
    | obj fs => exact absurd rfl (hobj fs)
    | null => simp [check_opa_permission, h]
    | bool b => simp [check_opa_permission, h]
    | num n => simp [check_opa_permission, h]
    | str s => simp [check_opa_permission, h]
    | arr xs => simp [check_opa_permission, h]

/-- C1 witness: the amended theorem applied to concrete outcomes. -/
theorem check_opa_fail_closed_witness :
    check_opa_permission (pdpOf .requestError) aliceU "read" none = .ok (.bool false)
    ∧ check_opa_permission (pdpOf (.response 500 none)) aliceU "read" none = .ok (.bool false)
    ∧ check_opa_permission pdpAllow aliceU "read" none = .ok (.bool true) :=
  ⟨(check_opa_fail_closed (pdpOf .requestError) aliceU "read" none).1 rfl,
   (check_opa_fail_closed (pdpOf (.response 500 none)) aliceU "read" none).2.1
      500 none (by decide) rfl,
   (check_opa_fail_closed pdpAllow aliceU "read" none).2.2.2.1
      [("result", .bool true)] rfl⟩

/-- C2: `list_resources` returns every stored resource to a superadmin
and exactly the caller-tenant resources otherwise, so a non-superadmin
caller of a different tenant never sees a foreign resource; the handler
is a pure function of the store and the caller, with no PDP argument. -/
theorem list_resources_spec (st : AppState) (u : User) :
    (u.role = "superadmin" → accessible_resources st u = st.resources)
    ∧ (u.role ≠ "superadmin" →
        accessible_resources st u = st.resources.filter (fun r => r.tenant = u.tenant))
    ∧ (∀ r, u.role ≠ "superadmin" → r.tenant ≠ u.tenant →
        r ∉ accessible_resources st u)
    ∧ list_resources st u
        = { status := 200,
            body := .obj [("resources", .arr ((accessible_resources st u).map resJson))] } := by
  refine ⟨?_, ?_, ?_, rfl⟩
  · intro h; simp [accessible_resources, h]
  · intro h; simp [accessible_resources, h]
  · intro r hrole ht hmem
    simp only [accessible_resources, if_neg hrole, List.mem_filter,
      decide_eq_true_eq] at hmem
    exact ht hmem.2

/-- C2 witness: `bob` (tenant acme, role user) gets exactly the
tenant-filtered view, and the globex resource 3 is not in it. -/
theorem list_resources_spec_witness :
    accessible_resources initialState bobU
      = initialState.resources.filter (fun r => r.tenant = bobU.tenant)
    ∧ res3 ∉ accessible_resources initialState bobU :=
  ⟨(list_resources_spec initialState bobU).2.1 (by decide),
   (list_resources_spec initialState bobU).2.2.1 res3 (by decide) (by decide)⟩

/-- C3: a successful `create_resource` stamps the caller's tenant on the
new resource regardless of any tenant value in the body, allocates the
id counter value — fresh with respect to every stored resource, given
the counter invariant — and appends the resource; a well-shaped PDP
deny for action `create` (queried with the synthesized resource
context) yields 403 and leaves the state unchanged. -/
theorem create_resource_spec (pdp : Pdp) (st : AppState) (u : User)
    (fs : List (String × Json)) (b : Bool)
    (hinv : ∀ r ∈ st.resources, r.id < st.next_resource_id)
    (hpdp : pdp (opaRequestBody (mkInput u "create" none))
              = .response 200 (some (.obj [("result", .bool b)]))) :
    (b = false →
      create_resource pdp st u (.obj fs) = .ok (errResponse 403 "Forbidden", st))
    ∧ (b = true → ∃ nr st',
        create_resource pdp st u (.obj fs)
          = .ok ({ status := 201, body := .obj [("resource", resJson nr)] }, st')
        ∧ nr.tenant = u.tenant
        ∧ nr.id = st.next_resource_id
        ∧ (∀ r ∈ st.resources, r.id ≠ nr.id)
        ∧ st'.resources = st.resources ++ [nr]
        ∧ st'.next_resource_id = st.next_resource_id + 1) := by
  have hco : check_opa_permission pdp u "create" none = .ok (.bool b) := by
    simp [check_opa_permission, hpdp, assocGet]
  constructor
  · rintro rfl
    simp [create_resource, hco, truthy, Bind.bind, Except.bind, Pure.pure,
      Except.pure]
  · rintro rfl
    refine ⟨{ id := st.next_resource_id, tenant := u.tenant,
              name := (assocGet fs "name").getD .null,
              type := (assocGet fs "type").getD (.str "document") },
            { resources := st.resources ++
                [{ id := st.next_resource_id, tenant := u.tenant,
                   name := (assocGet fs "name").getD .null,
                   type := (assocGet fs "type").getD (.str "document") }],
              next_resource_id := st.next_resource_id + 1 },
            ?_, rfl, rfl, ?_, rfl, rfl⟩
    · simp [create_resource, hco, truthy, pyDictGet, Bind.bind, Except.bind,
        Pure.pure, Except.pure, Functor.map, Except.map]
    · intro r hr
      exact Nat.ne_of_lt (hinv r hr)

/-- C3 witness: `alice` creates a resource whose body tries to claim
tenant `globex`; the stored resource carries tenant `acme` and the
fresh id 5. -/
theorem create_resource_spec_witness :
    ∃ nr st',
      create_resource pdpAllow initialState aliceU
          (.obj [("name", .str "New Doc"), ("tenant", .str "globex")])
        = .ok ({ status := 201, body := .obj [("resource", resJson nr)] }, st')
      ∧ nr.tenant = aliceU.tenant
      ∧ nr.id = initialState.next_resource_id
      ∧ (∀ r ∈ initialState.resources, r.id ≠ nr.id)
      ∧ st'.resources = initialState.resources ++ [nr]
      ∧ st'.next_resource_id = initialState.next_resource_id + 1 :=
  (create_resource_spec pdpAllow initialState aliceU
      [("name", .str "New Doc"), ("tenant", .str "globex")] true
      (by decide) rfl).2 rfl

/-- C4 counterexample: the claim says `bob` deleting the globex resource
id 3 gets 404; but the lookup is global, the resource is found, and a
PDP deny yields 403 — not 404 — even though the resource belongs to a
foreign tenant. -/
theorem delete_c4_counterexample :
    (∃ r ∈ initialState.resources, r.id = 3 ∧ r.tenant ≠ bobU.tenant)
    ∧ bobU.role ≠ "superadmin"
    ∧ delete_resource pdpDeny initialState bobU 3
        = .ok (errResponse 403 "Forbidden", initialState)
    ∧ (errResponse 403 "Forbidden").status ≠ 404 := by
  refine ⟨⟨res3, ?_, rfl, by decide⟩, by decide, rfl, by decide⟩
  show res3 ∈ [res1, res2, res3, res4]
  exact List.mem_cons_of_mem _ (List.mem_cons_of_mem _ (List.mem_cons_self _ _))

/-- C4 (amended): a delete for an id that exists — even under a foreign
tenant — returns 403 when the PDP denies (store unchanged) and removes
the resource when the PDP allows; 404 is returned exactly when no
resource in the store has the requested id. -/
theorem delete_resource_spec (pdp : Pdp) (st : AppState) (u : User) (rid : Nat) :
    (st.resources.find? (fun r => r.id = rid) = none →
      delete_resource pdp st u rid = .ok (errResponse 404 "Resource not found", st))
    ∧ (∀ r b, st.resources.find? (fun r => r.id = rid) = some r →
        pdp (opaRequestBody (mkInput u "delete" (some r)))
          = .response 200 (some (.obj [("result", .bool b)])) →
        (b = false →
          delete_resource pdp st u rid = .ok (errResponse 403 "Forbidden", st))
        ∧ (b = true →
          delete_resource pdp st u rid
            = .ok ({ status := 200, body := .obj [("message", .str "Resource deleted")] },
                   { st with resources := st.resources.filter (fun x => x.id ≠ rid) }))) := by
  constructor
  · intro h
    simp [delete_resource, h, Pure.pure, Except.pure]
  · intro r b hfind hpdp
    have hco : check_opa_permission pdp u "delete" (some r) = .ok (.bool b) := by
      simp [check_opa_permission, hpdp, assocGet]
    constructor
    · rintro rfl
      simp [delete_resource, hfind, hco, truthy, Bind.bind, Except.bind,
        Pure.pure, Except.pure]
    · rintro rfl
      simp [delete_resource, hfind, hco, truthy, Bind.bind, Except.bind,
        Pure.pure, Except.pure]

/-- C4 witness: the amended theorem at concrete inputs — superadmin
`root` with an allowing PDP deletes resource 2; an unknown id gives
404. -/
theorem delete_resource_spec_witness :
    delete_resource pdpAllow initialState rootU 2
      = .ok ({ status := 200, body := .obj [("message", .str "Resource deleted")] },
             { initialState with
               resources := initialState.resources.filter (fun x => x.id ≠ 2) })
    ∧ delete_resource pdpAllow initialState rootU 99
      = .ok (errResponse 404 "Resource not found", initialState) :=
  ⟨((delete_resource_spec pdpAllow initialState rootU 2).2 res2 true rfl rfl).2 rfl,
   (delete_resource_spec pdpAllow initialState rootU 99).1 rfl⟩

/-- C5 counterexample: the claim says the query's resource context is
exactly the supplied resource's tenant, id and type; but the code sends
the whole resource dict, whose key set also includes `name`. -/
theorem mkInput_c5_counterexample :
    jLookup (mkInput aliceU "read" (some res1)) "resource" = some (resJson res1)
    ∧ jKeys (resJson res1) = ["id", "tenant", "name", "type"]
    ∧ ¬ (jKeys (resJson res1)).Perm ["tenant", "id", "type"] :=
  ⟨rfl, rfl, fun h => by
    have hl := h.length_eq
    simp [jKeys, resJson] at hl⟩

/-- C5 (amended): the decision query contains exactly the caller's id,
username, tenant and role, the action name, and as resource context
either the full supplied resource record — its id, tenant, name and
type — or the synthesized object with the caller's tenant when no
resource is supplied. -/
theorem mkInput_spec (u : User) (action : String) (res : Option Resource) :
    jKeys (mkInput u action res) = ["user", "action", "resource"]
    ∧ jLookup (mkInput u action res) "user"
        = some (.obj [("id", .num u.id), ("username", .str u.username),
                      ("tenant", .str u.tenant), ("role", .str u.role)])
    ∧ jLookup (mkInput u action res) "action" = some (.str action)
    ∧ (∀ r, res = some r →
        jLookup (mkInput u action res) "resource" = some (resJson r)
        ∧ jKeys (resJson r) = ["id", "tenant", "name", "type"])
    ∧ (res = none →
        jLookup (mkInput u action res) "resource"
          = some (.obj [("tenant", .str u.tenant)])) := by
  refine ⟨rfl, rfl, rfl, ?_, ?_⟩
  · rintro r rfl
    exact ⟨rfl, rfl⟩
  · rintro rfl
    rfl

/-- C5 witness: the amended theorem at a concrete caller, action and
resource, and at a resource-less `create` query. -/
theorem mkInput_spec_witness :
    jLookup (mkInput bobU "update" (some res2)) "resource" = some (resJson res2)
    ∧ jKeys (resJson res2) = ["id", "tenant", "name", "type"]
    ∧ jLookup (mkInput bobU "create" none) "resource"
        = some (.obj [("tenant", .str bobU.tenant)]) :=
  ⟨((mkInput_spec bobU "update" (some res2)).2.2.2.1 res2 rfl).1,
   ((mkInput_spec bobU "update" (some res2)).2.2.2.1 res2 rfl).2,
   (mkInput_spec bobU "create" none).2.2.2.2 rfl⟩

/-- C6: a token whose expiry claim is in the past is rejected 401
`Token expired` even when its signature is the genuine one; a missing
bearer token is rejected 401 `No token provided`; a wrong signature or
undecodable token is rejected 401 `Invalid token`. -/
theorem require_auth_categories {α : Type} (users : List User) (secret : String)
    (now : Int) (handler : User → α) :
    (require_auth users secret now none handler
        = .inl (errResponse 401 "No token provided"))
    ∧ (∀ c : TokenClaims, c.exp < now →
        require_auth users secret now (some (.signed c (mkSig secret c))) handler
          = .inl (errResponse 401 "Token expired"))
    ∧ (∀ c s, s ≠ mkSig secret c →
        require_auth users secret now (some (.signed c s)) handler
          = .inl (errResponse 401 "Invalid token"))
    ∧ (require_auth users secret now (some .malformed) handler
        = .inl (errResponse 401 "Invalid token")) := by
  refine ⟨rfl, ?_, ?_, rfl⟩
  · intro c h
    simp [require_auth, jwtDecode, le_of_lt h]
  · intro c s h
    simp [require_auth, jwtDecode, h]

/-- C6 witness: the category theorem at concrete tokens against the
seeded store at time 1000. -/
theorem require_auth_categories_witness :
    require_auth seedUsers SECRET_KEY 1000 none (fun u => u.username)
      = .inl (errResponse 401 "No token provided")
    ∧ require_auth seedUsers SECRET_KEY 1000
        (some (.signed { username := "alice", tenant := "acme", role := "admin", exp := 5 }
          (mkSig SECRET_KEY { username := "alice", tenant := "acme", role := "admin", exp := 5 })))
        (fun u => u.username)
      = .inl (errResponse 401 "Token expired")
    ∧ require_auth seedUsers SECRET_KEY 1000
        (some (.signed { username := "alice", tenant := "acme", role := "admin", exp := 5000 }
          "bad-signature"))
        (fun u => u.username)
      = .inl (errResponse 401 "Invalid token") :=
  ⟨(require_auth_categories seedUsers SECRET_KEY 1000 (fun u => u.username)).1,
   (require_auth_categories seedUsers SECRET_KEY 1000 (fun u => u.username)).2.1
      { username := "alice", tenant := "acme", role := "admin", exp := 5 } (by decide),
   (require_auth_categories seedUsers SECRET_KEY 1000 (fun u => u.username)).2.2.1
      { username := "alice", tenant := "acme", role := "admin", exp := 5000 }
      "bad-signature" (by decide)⟩

/-- C7: a genuinely signed, unexpired token whose username claim matches
no user record is rejected 401 `User not found`: token decoding itself
succeeds, and the wrapped handler is never invoked — the result is the
same for every handler. -/
theorem require_auth_principal_not_found {α : Type} (users : List User)
    (secret : String) (now : Int) (c : TokenClaims)
    (h_unexpired : now < c.exp)
    (h_nouser : lookupUser users c.username = none) :
    jwtDecode secret now (.signed c (mkSig secret c)) = .ok c
    ∧ (∀ handler : User → α,
        require_auth users secret now (some (.signed c (mkSig secret c))) handler
          = .inl (errResponse 401 "User not found"))
    ∧ (∀ h₁ h₂ : User → α,
        require_auth users secret now (some (.signed c (mkSig secret c))) h₁
          = require_auth users secret now (some (.signed c (mkSig secret c))) h₂) := by
  have hdec : jwtDecode secret now (.signed c (mkSig secret c)) = .ok c := by
    simp [jwtDecode, not_le.mpr h_unexpired]
  refine ⟨hdec, ?_, ?_⟩
  · intro handler
    simp [require_auth, hdec, h_nouser]
  · intro h₁ h₂
    simp [require_auth, hdec, h_nouser]

/-- C7 witness: a valid token for the deleted account `mallory` is
rejected with `User not found`. -/
theorem require_auth_principal_not_found_witness :
    require_auth seedUsers SECRET_KEY 1000
        (some (.signed { username := "mallory", tenant := "acme", role := "user", exp := 2000 }
          (mkSig SECRET_KEY { username := "mallory", tenant := "acme", role := "user", exp := 2000 })))
        (fun u => u.username)
      = .inl (errResponse 401 "User not found") :=
  (require_auth_principal_not_found seedUsers SECRET_KEY 1000
      { username := "mallory", tenant := "acme", role := "user", exp := 2000 }
      (by decide) rfl).2.1 (fun u => u.username)

/-- C8: on a found resource and a well-shaped PDP answer for `update`,
a deny leaves the store untouched and returns 403; an allow updates
only the `name`/`type` fields of the first resource with the id — its
id and tenant are preserved, and every resource before and after it in
the store is exactly as before; an absent id returns 404. -/
theorem update_resource_spec (pdp : Pdp) (st : AppState) (u : User) (rid : Nat)
    (fs : List (String × Json)) :
    (st.resources.find? (fun r => r.id = rid) = none →
      update_resource pdp st u rid (.obj fs)
        = .ok (errResponse 404 "Resource not found", st))
    ∧ (∀ r b, st.resources.find? (fun r => r.id = rid) = some r →
        pdp (opaRequestBody (mkInput u "update" (some r)))
          = .response 200 (some (.obj [("result", .bool b)])) →
        (b = false →
          update_resource pdp st u rid (.obj fs)
            = .ok (errResponse 403 "Forbidden", st))
        ∧ (b = true → ∃ pre post,
            st.resources = pre ++ r :: post
            ∧ (∀ x ∈ pre, x.id ≠ rid)
            ∧ update_resource pdp st u rid (.obj fs)
                = .ok ({ status := 200,
                         body := .obj [("resource", resJson (applyUpdateFields r fs))] },
                       { st with resources := pre ++ applyUpdateFields r fs :: post })
            ∧ (applyUpdateFields r fs).id = r.id
            ∧ (applyUpdateFields r fs).tenant = r.tenant)) := by
  constructor
  · intro h
    simp [update_resource, h, Pure.pure, Except.pure]
  · intro r b hfind hpdp
    have hco : check_opa_permission pdp u "update" (some r) = .ok (.bool b) := by
      simp [check_opa_permission, hpdp, assocGet]
    constructor
    · rintro rfl
      simp [update_resource, hfind, hco, truthy, Bind.bind, Except.bind,
        Pure.pure, Except.pure]
    · rintro rfl
      obtain ⟨pre, post, hsplit, hpre⟩ := find_eq_some_split hfind
      have hrid : r.id = rid := by
        have := List.find?_some hfind
        simpa using this
      have hpre' : ∀ x ∈ pre, (x.id = rid) = False := by
        intro x hx
        have := hpre x hx
        simpa using this
      have hrepl : replaceFirst st.resources rid (applyUpdateFields r fs)
          = pre ++ applyUpdateFields r fs :: post := by
        rw [hsplit]
        exact replaceFirst_append pre post r _ rid hpre' hrid
      have hrun : update_resource pdp st u rid (.obj fs)
          = .ok ({ status := 200,
                   body := .obj [("resource", resJson (applyUpdateFields r fs))] },
                 { st with resources := replaceFirst st.resources rid (applyUpdateFields r fs) }) := by
        cases hn : assocGet fs "name" <;> cases htp : assocGet fs "type" <;>
          simp [update_resource, hfind, hco, truthy, pyContains, pyGetItem,
            assocGet_any, hn, htp, applyUpdateFields, Bind.bind, Except.bind,
            Pure.pure, Except.pure]
      refine ⟨pre, post, hsplit, ?_, ?_, ?_, ?_⟩
      · intro x hx
        have := hpre x hx
        simpa using this
      · rw [hrun, hrepl]
      · cases hn : assocGet fs "name" <;> cases htp : assocGet fs "type" <;>
          simp [applyUpdateFields, hn, htp]
      · cases hn : assocGet fs "name" <;> cases htp : assocGet fs "type" <;>
          simp [applyUpdateFields, hn, htp]

/-- C8 witness: `alice` renames resource 1 under an allowing PDP; only
the name changes and the rest of the store is untouched. -/
theorem update_resource_spec_witness :
    ∃ pre post,
      initialState.resources = pre ++ res1 :: post
      ∧ (∀ x ∈ pre, x.id ≠ 1)
      ∧ update_resource pdpAllow initialState aliceU 1 (.obj [("name", .str "Renamed")])
          = .ok ({ status := 200,
                   body := .obj [("resource",
                     resJson (applyUpdateFields res1 [("name", .str "Renamed")]))] },
                 { initialState with
                   resources := pre ++ applyUpdateFields res1 [("name", .str "Renamed")] :: post })
      ∧ (applyUpdateFields res1 [("name", .str "Renamed")]).id = res1.id
      ∧ (applyUpdateFields res1 [("name", .str "Renamed")]).tenant = res1.tenant :=
  ((update_resource_spec pdpAllow initialState aliceU 1 [("name", .str "Renamed")]).2
      res1 true rfl rfl).2 rfl

/-- C9: `get_tenant` answers 404 exactly when the tenant id is absent,
403 exactly when it exists but the caller is neither superadmin nor a
member, and 200 with the tenant otherwise — so the status code reveals
whether a foreign tenant id exists. -/
theorem get_tenant_spec (ts : List Tenant) (u : User) (tid : String) :
    ((get_tenant ts u tid).status = 404 ↔ ts.find? (fun t => t.id = tid) = none)
    ∧ ((get_tenant ts u tid).status = 403 ↔
        (∃ t, ts.find? (fun t => t.id = tid) = some t)
        ∧ u.role ≠ "superadmin" ∧ u.tenant ≠ tid)
    ∧ (∀ t, ts.find? (fun t => t.id = tid) = some t →
        (u.role = "superadmin" ∨ u.tenant = tid) →
        get_tenant ts u tid
          = { status := 200, body := .obj [("tenant", tenantJson t)] }) := by
  cases hfind : ts.find? (fun t => t.id = tid) with
  | none =>
    refine ⟨by simp [get_tenant, hfind, errResponse], ?_, ?_⟩
    · simp [get_tenant, hfind, errResponse]
    · intro t ht
      exact Option.noConfusion ht
  | some t0 =>
    by_cases hacc : u.role ≠ "superadmin" ∧ u.tenant ≠ tid
    · refine ⟨?_, ?_, ?_⟩
      · simp [get_tenant, hfind, hacc, errResponse]
      · constructor
        · intro _
          exact ⟨⟨t0, rfl⟩, hacc⟩
        · intro _
          simp [get_tenant, hfind, hacc, errResponse]
      · intro t ht hor
        rcases hor with h | h
        · exact absurd h hacc.1
        · exact absurd h hacc.2
    · refine ⟨?_, ?_, ?_⟩
      · simp [get_tenant, hfind, hacc]
      · constructor
        · intro h
          simp [get_tenant, hfind, hacc] at h
        · rintro ⟨_, hrole, htid⟩
          exact absurd ⟨hrole, htid⟩ hacc
      · intro t ht _
        injection ht with ht
        rw [← ht]
        simp [get_tenant, hfind, hacc]

/-- C9 witness: `bob` (tenant acme) gets 403 for the existing foreign
tenant `globex`, 404 for the nonexistent `nosuch`, and the record for
his own tenant `acme`. -/
theorem get_tenant_spec_witness :
    (get_tenant seedTenants bobU "globex").status = 403
    ∧ (get_tenant seedTenants bobU "nosuch").status = 404
    ∧ get_tenant seedTenants bobU "acme"
        = { status := 200,
            body := .obj [("tenant", tenantJson
              { id := "acme", name := "Acme Corporation", parent := none, active := true })] } :=
  ⟨(get_tenant_spec seedTenants bobU "globex").2.1.mpr
      ⟨⟨{ id := "globex", name := "Globex Inc", parent := none, active := true }, rfl⟩,
       by decide, by decide⟩,
   (get_tenant_spec seedTenants bobU "nosuch").1.mpr rfl,
   (get_tenant_spec seedTenants bobU "acme").2.2
      { id := "acme", name := "Acme Corporation", parent := none, active := true }
      rfl (Or.inr rfl)⟩

/-- C10: when the login body names an existing user and carries no
password value, the handler raises (`None.encode()` fails) instead of
returning 401; and a 401 invalid-credentials response is only produced
when a string password value is present or the username resolves to no
user. -/
theorem login_guard_spec :
    (∀ (users : List User) (secret : String) (now : Int)
        (fs : List (String × Json)) (uname : String) (u : User),
        assocGet fs "username" = some (.str uname) →
        assocGet fs "password" = none →
        lookupUser users uname = some u →
        login users secret now (.obj fs) = .error .attributeError
        ∧ login users secret now (.obj fs) ≠ .ok (errResponse 401 "Invalid credentials"))
    ∧ (∀ (users : List User) (secret : String) (now : Int)
        (fs : List (String × Json)),
        login users secret now (.obj fs) = .ok (errResponse 401 "Invalid credentials") →
        (∃ p, assocGet fs "password" = some (.str p))
        ∨ lookupUserByJson users ((assocGet fs "username").getD .null) = .ok none) := by
  constructor
  · intro users secret now fs uname u hu hp huser
    have hrun : login users secret now (.obj fs) = .error .attributeError := by
      simp [login, pyDictGet, hu, hp, lookupUserByJson, huser, Bind.bind,
        Except.bind, Pure.pure, Except.pure, Functor.map, Except.map]
    exact ⟨hrun, by simp [hrun]⟩
  · intro users secret now fs h
    cases hU : lookupUserByJson users ((assocGet fs "username").getD .null) with
    | error e =>
      have hrun : login users secret now (.obj fs) = .error e := by
        simp [login, pyDictGet, hU, Bind.bind, Except.bind, Pure.pure,
          Except.pure, Functor.map, Except.map]
      rw [hrun] at h
      exact Except.noConfusion h
    | ok o =>
      cases o with
      | none => exact Or.inr rfl
      | some u0 =>
        cases hP : assocGet fs "password" with
        | none =>
          have hrun : login users secret now (.obj fs) = .error .attributeError := by
            simp [login, pyDictGet, hU, hP, Bind.bind, Except.bind, Pure.pure,
              Except.pure, Functor.map, Except.map]
          rw [hrun] at h
          exact Except.noConfusion h
        | some v =>
          cases v with
          | str p => exact Or.inl ⟨p, rfl⟩
          | null =>
            have hrun : login users secret now (.obj fs) = .error .attributeError := by
              simp [login, pyDictGet, hU, hP, Bind.bind, Except.bind, Pure.pure,
                Except.pure, Functor.map, Except.map]
            rw [hrun] at h
            exact Except.noConfusion h
          | bool b =>
            have hrun : login users secret now (.obj fs) = .error .attributeError := by
              simp [login, pyDictGet, hU, hP, Bind.bind, Except.bind, Pure.pure,
                Except.pure, Functor.map, Except.map]
            rw [hrun] at h
            exact Except.noConfusion h
          | num n =>
            have hrun : login users secret now (.obj fs) = .error .attributeError := by
              simp [login, pyDictGet, hU, hP, Bind.bind, Except.bind, Pure.pure,
                Except.pure, Functor.map, Except.map]
            rw [hrun] at h
            exact Except.noConfusion h
          | arr xs =>
            have hrun : login users secret now (.obj fs) = .error .attributeError := by
              simp [login, pyDictGet, hU, hP, Bind.bind, Except.bind, Pure.pure,
                Except.pure, Functor.map, Except.map]
            rw [hrun] at h
            exact Except.noConfusion h
          | obj gs =>
            have hrun : login users secret now (.obj fs) = .error .attributeError := by
              simp [login, pyDictGet, hU, hP, Bind.bind, Except.bind, Pure.pure,
                Except.pure, Functor.map, Except.map]
            rw [hrun] at h
            exact Except.noConfusion h

/-- C10 witness: logging in as the existing `alice` with no password
field raises `AttributeError` rather than answering 401. -/
theorem login_guard_spec_witness :
    login seedUsers SECRET_KEY 0 (.obj [("username", .str "alice")])
      = .error .attributeError :=
  (login_guard_spec.1 seedUsers SECRET_KEY 0 [("username", .str "alice")]
      "alice" aliceU rfl rfl rfl).1

end MultiTenant
